import Mathlib

/-
Verification development for the sandboxed code-execution subsystem of the
agentception repository (src/tools/code_execution.py, src/tools/gemini_tools.py).

External effects (LLM collaborator responses, subprocess results) are passed
in explicitly as "world" records; the Lean functions below mirror the Python
control flow of the corresponding methods line by line.
-/

namespace Agentception

/-! ## Character-level helpers (models of Python string primitives) -/

/-- Model of Python `str.strip()` leading-whitespace removal on a character
list: drops leading characters that Python considers whitespace. -/
def dropLeadingWs : List Char → List Char
  | [] => []
  | c :: rest =>
    if c = ' ' ∨ c = '\t' ∨ c = '\n' ∨ c = '\r' ∨ c = '\x0b' ∨ c = '\x0c' then
      dropLeadingWs rest
    else c :: rest

/-- Model of Python `str.strip()` on a character list: whitespace removed from
both ends. -/
def stripData (cs : List Char) : List Char :=
  ((dropLeadingWs ((dropLeadingWs cs).reverse))).reverse

/-- Model of Python `str.splitlines()` restricted to the `\n` separator: splits
into lines, producing no entry for a trailing newline and no entry at all for
the empty string. -/
def splitLinesAux : List Char → List Char → List String
  | [], cur => [String.mk cur.reverse]
  | '\n' :: [], cur => [String.mk cur.reverse]
  | '\n' :: rest, cur => String.mk cur.reverse :: splitLinesAux rest []
  | c :: rest, cur => splitLinesAux rest (c :: cur)

/-- Split a string into its lines, Python `splitlines` style. -/
def splitLines (s : String) : List String :=
  match s.data with
  | [] => []
  | cs => splitLinesAux cs []

/-! ## GeminiTools.extract_python_code_block (src/tools/gemini_tools.py 201-223)

The Python method walks the lines of the markdown, toggling an `in_code_block`
flag: a line whose strip starts with three backticks followed by "python"
opens a block, a line whose strip is exactly three backticks closes it, and
lines seen while the flag is set are collected; the collected lines are joined
with newlines. -/

/-- Line loop of `extract_python_code_block`: the accumulator of collected
code lines, threaded through the `in_code_block` flag exactly as in the
Python `for` loop. -/
def extract_loop : List String → Bool → List String
  | [], _ => []
  | line :: rest, in_code_block =>
    if List.isPrefixOf "```python".data (stripData line.data) then
      extract_loop rest true
    else if stripData line.data = "```".data ∧ in_code_block = true then
      extract_loop rest false
    else if in_code_block = true then
      line :: extract_loop rest in_code_block
    else
      extract_loop rest in_code_block

/-- Model of `GeminiTools.extract_python_code_block`: splits the markdown into
lines, runs the collection loop starting outside any block, and joins the
collected lines with newlines. -/
def extract_python_code_block (markdown : String) : String :=
  String.intercalate "\n" (extract_loop (splitLines markdown) false)

/-! ## CodeExecutionTools.analyze_dependencies (src/tools/code_execution.py 26-55)

The Python method sends the source to the collaborator, then scans the
response text with `re.search` for the pattern bracket, lazy dot-star,
bracket (DOTALL), `eval`s the first match, and returns it if it is a list;
on no match, a non-list value, or any exception it returns the empty list.
The collaborator response text is the explicit input of the model below. -/

/-- Scan for the closing bracket of a lazy bracketed match: returns the
characters up to and including the first `]`, or none when no `]` follows. -/
def takeToClose : List Char → Option (List Char)
  | [] => none
  | c :: rest =>
    if c = ']' then some [']']
    else (takeToClose rest).map (fun t => c :: t)

/-- Model of `re.search` with the pattern bracket, lazy dot-star, bracket
under DOTALL: the leftmost match starts at the first `[` of the text and ends
at the first `]` after it; none when there is no such match. -/
def findFirstBracketed : List Char → Option (List Char)
  | [] => none
  | c :: rest =>
    if c = '[' then (takeToClose rest).map (fun t => '[' :: t)
    else findFirstBracketed rest

/-- Parse the body of a Python string literal delimited by the quote `q`:
returns the contents and the remainder after the closing quote. Escape
sequences are not modelled (a backslash is an ordinary character). -/
def parseStringLit (q : Char) : List Char → Option (String × List Char)
  | [] => none
  | c :: rest =>
    if c = q then some ("", rest)
    else
      match parseStringLit q rest with
      | some (s, r) => some (String.mk (c :: s.data), r)
      | none => none

/-- Element loop of the list-literal evaluator: `expectElem` is true when an
element (or a closing bracket) may come next, false when a comma or the
closing bracket must come next. The closing bracket must end the input, as it
does for every substring produced by `findFirstBracketed`. -/
def parseElems : Nat → Bool → List String → List Char → Option (List String)
  | 0, _, _, _ => none
  | fuel + 1, expectElem, acc, cs =>
    match dropLeadingWs cs with
    | [] => none
    | c :: rest =>
      if expectElem then
        if c = ']' then (if dropLeadingWs rest = [] then some acc else none)
        else if c = '\'' ∨ c = '"' then
          match parseStringLit c rest with
          | some (s, r) => parseElems fuel false (acc ++ [s]) r
          | none => none
        else none
      else
        if c = ']' then (if dropLeadingWs rest = [] then some acc else none)
        else if c = ',' then parseElems fuel true acc rest
        else none

/-- Model of Python `eval` applied to the matched bracketed substring,
restricted to plain list displays of string literals (the shape the prompt
requests); trailing commas and both quote styles are accepted. Any input
outside this fragment is treated as an evaluation error (none), matching the
`except` branch of the Python method. -/
def evalListLit : List Char → Option (List String)
  | '[' :: rest => parseElems (rest.length + 1) true [] rest
  | _ => none

/-- Model of `CodeExecutionTools.analyze_dependencies` as a function of the
collaborator's response text: first bracketed substring, evaluated as a list;
empty list when there is no match or evaluation fails. -/
def analyze_dependencies (respText : String) : List String :=
  match findFirstBracketed respText.data with
  | none => []
  | some sub =>
    match evalListLit sub with
    | some deps => deps
    | none => []

/-! ## CodeExecutionTools.create_requirements_file (src/tools/code_execution.py 57-61)

The Python method writes the dependency names, one per line, into a fresh
temporary file; the model below is the content written. -/

/-- Content of the requirements manifest: the dependency names joined by
newlines. -/
def create_requirements_file (dependencies : List String) : String :=
  String.intercalate "\n" dependencies

/-! ## CodeExecutionTools.setup_venv (src/tools/code_execution.py 63-101)

The Python method sets `venv_dir = "temp_venv"`, runs `python -m venv
temp_venv` with `check=True` (an exception lands in the `except` branch),
then runs `pip install -r requirements` capturing output. A non-zero pip
exit returns a failure record whose `venv_dir` and `python_path` are None;
success returns the directory and interpreter paths. The subprocess results
are passed in as a `ProvisionWorld`. -/

/-- External effects of one `setup_venv` call: whether `python -m venv`
succeeded (with the exception text when it did not), and the pip installer's
exit code and captured stderr. -/
structure ProvisionWorld where
  venvCreateOk : Bool
  venvCreateErr : String
  pipReturncode : Int
  pipStderr : String
deriving DecidableEq

/-- Return record of `setup_venv`, mirroring the Python dict keys. -/
structure VenvSetup where
  success : Bool
  error : Option String
  venv_dir : Option String
  python_path : Option String
deriving DecidableEq

/-- Model of `CodeExecutionTools.setup_venv`. The directory name is the
fixed string "temp_venv" (line 65); on pip failure the returned `venv_dir`
is None even though the directory was created. -/
def setup_venv (w : ProvisionWorld) : VenvSetup :=
  if w.venvCreateOk = false then
    { success := false, error := some w.venvCreateErr,
      venv_dir := none, python_path := none }
  else if w.pipReturncode ≠ 0 then
    { success := false, error := some w.pipStderr,
      venv_dir := none, python_path := none }
  else
    { success := true, error := none,
      venv_dir := some "temp_venv", python_path := some "temp_venv/bin/python" }

/-- Whether the `temp_venv` directory exists on disk when `setup_venv`
returns: `python -m venv temp_venv` created it, and nothing in `setup_venv`
removes it afterwards, on the failure path included. -/
def setup_venv_dirOnDisk (w : ProvisionWorld) : Bool :=
  w.venvCreateOk

/-! ## CodeExecutionTools._local_execute_with_deps (src/tools/code_execution.py 110-204)

The Python method infers dependencies, writes the requirements manifest,
provisions the environment, writes the code to a temporary file, runs it with
`subprocess.run(..., timeout=30)`, and on non-zero exit performs one repair
round (one collaborator request producing fixed code, one run of the fixed
code). `subprocess.run` raises `TimeoutExpired` on timeout, which is caught
by the method's `except Exception` branch. The `finally` block unlinks every
recorded temporary file and removes the venv directory only when the local
`venv_dir` variable was assigned. -/

/-- Outcome of one bounded `subprocess.run` invocation: the process exited
with a code and captured stdout/stderr, or the call raised `TimeoutExpired`
carrying the exception text. -/
inductive RunOutcome where
  | exited (returncode : Int) (stdout stderr : String)
  | timedOut (excMsg : String)
deriving DecidableEq

/-- External effects of one `_local_execute_with_deps` call: the inferred
dependency list, the provisioning subprocess results, the first run of the
code, the repaired code produced by the collaborator (via `return_code`), and
the run of the repaired code. -/
structure LocalExecWorld where
  inferredDeps : List String
  provision : ProvisionWorld
  run1 : RunOutcome
  fixedCode : String
  run2 : RunOutcome
deriving DecidableEq

/-- Return record of `_local_execute_with_deps`; a missing dict key is
modelled as none. -/
structure ExecResult where
  success : Bool
  output : Option String
  error : Option String
  fixed_code : Option String
deriving DecidableEq

/-- Observable trace of one `_local_execute_with_deps` call: the returned
record together with the side effects the claims are about — how many repair
requests and interpreter runs happened, how many temporary files were
created and then unlinked by the `finally` block, and whether the venv
directory was created on disk and whether the `finally` block removed it. -/
structure ExecTrace where
  result : ExecResult
  repairCalls : Nat
  runsPerformed : Nat
  tempFilesCreated : Nat
  tempFilesRemoved : Nat
  venvDirCreated : Bool
  venvDirRemoved : Bool
deriving DecidableEq

/-- Model of `CodeExecutionTools._local_execute_with_deps`. Control flow is
translated branch by branch: provisioning failure returns early with the
local `venv_dir` still None, so the `finally` block removes only the
requirements file and not the directory; a `TimeoutExpired` from either run
lands in the `except` branch whose result carries the exception text; a
non-zero first exit triggers exactly one repair request and one run of the
fixed code. -/
def local_execute_with_deps (w : LocalExecWorld) : ExecTrace :=
  let venv_setup := setup_venv w.provision
  let venvDirCreated := setup_venv_dirOnDisk w.provision
  if venv_setup.success = false then
    { result := { success := false, output := none,
                  error := some ("Failed to set up virtual environment: "
                                  ++ venv_setup.error.getD ""),
                  fixed_code := none },
      repairCalls := 0, runsPerformed := 0,
      tempFilesCreated := 1, tempFilesRemoved := 1,
      venvDirCreated := venvDirCreated, venvDirRemoved := false }
  else
    match w.run1 with
    | .timedOut excMsg =>
      { result := { success := false, output := none,
                    error := some excMsg, fixed_code := none },
        repairCalls := 0, runsPerformed := 1,
        tempFilesCreated := 2, tempFilesRemoved := 2,
        venvDirCreated := venvDirCreated, venvDirRemoved := true }
    | .exited code _stdout _stderr1 =>
      if code ≠ 0 then
        match w.run2 with
        | .timedOut excMsg =>
          { result := { success := false, output := none,
                        error := some excMsg, fixed_code := none },
            repairCalls := 1, runsPerformed := 2,
            tempFilesCreated := 3, tempFilesRemoved := 3,
            venvDirCreated := venvDirCreated, venvDirRemoved := true }
        | .exited code2 stdout2 stderr2 =>
          { result := { success := code2 == 0, output := some stdout2,
                        error := if code2 ≠ 0 then some stderr2 else none,
                        fixed_code := some w.fixedCode },
            repairCalls := 1, runsPerformed := 2,
            tempFilesCreated := 3, tempFilesRemoved := 3,
            venvDirCreated := venvDirCreated, venvDirRemoved := true }
      else
        { result := { success := true, output := some _stdout,
                      error := none, fixed_code := none },
          repairCalls := 0, runsPerformed := 1,
          tempFilesCreated := 2, tempFilesRemoved := 2,
          venvDirCreated := venvDirCreated, venvDirRemoved := true }

/-! ## CodeExecutionTools.run_streamlit_app (src/tools/code_execution.py 206-272)

The Python method infers dependencies, appends "streamlit" when absent,
provisions the environment, writes the app to a temporary file, launches
`streamlit run` with `Popen`, and calls `communicate(timeout=5)`. If the
process exited within that grace window with a non-zero code it returns a
failure record carrying stderr; if `communicate` raises `TimeoutExpired` it
returns a success record carrying the live process handle; if the process
exited with code 0 within the window, the method falls off the end of the
`try` block (its `finally` is a no-op) and Python returns None. -/

/-- Behaviour of the launched streamlit process within the five-second grace
window: `communicate(timeout=5)` returned because the process exited, or it
raised `TimeoutExpired` because the process is still running. -/
inductive StartupOutcome where
  | exitedWithin (returncode : Int) (stdout stderr : String)
  | stillRunning
deriving DecidableEq

/-- External effects of one `run_streamlit_app` call. -/
structure StreamlitWorld where
  inferredDeps : List String
  provision : ProvisionWorld
  startup : StartupOutcome
deriving DecidableEq

/-- Return record of `run_streamlit_app`, mirroring the dict keys of the
Python return sites; `hasProcess` records whether the live process handle is
included. -/
structure StreamlitResult where
  success : Bool
  error : Option String
  hasProcess : Bool
  venv_dir : Option String
deriving DecidableEq

/-- The dependency list `run_streamlit_app` installs (lines 213-215): the
inferred list with "streamlit" appended at the end when it is absent. -/
def streamlitDeps (inferred : List String) : List String :=
  if "streamlit" ∈ inferred then inferred else inferred ++ ["streamlit"]

/-- The dependency list installed into the environment provisioned by
`run_streamlit_app` for a given call. -/
def run_streamlit_app_installedDeps (w : StreamlitWorld) : List String :=
  streamlitDeps w.inferredDeps

/-- Model of `CodeExecutionTools.run_streamlit_app`. The value is an Option
because the Python method returns None when the launched process exits with
code 0 inside the grace window. -/
def run_streamlit_app (w : StreamlitWorld) : Option StreamlitResult :=
  let venv_setup := setup_venv w.provision
  if venv_setup.success = false then
    some { success := false,
           error := some ("Failed to set up virtual environment: "
                           ++ venv_setup.error.getD ""),
           hasProcess := false, venv_dir := none }
  else
    match w.startup with
    | .exitedWithin code _stdout stderr =>
      if code ≠ 0 then
        some { success := false, error := some stderr,
               hasProcess := false, venv_dir := none }
      else
        none
    | .stillRunning =>
      some { success := true, error := none,
             hasProcess := true, venv_dir := some "temp_venv" }

/-! ## Theorems -/

/-- Claim C7: dependency inference is fail-open — for any collaborator
response with no bracket-delimited substring, or whose first bracketed
substring fails to evaluate as a list, `analyze_dependencies` returns the
empty list; being a total function, it never propagates a parse error. -/
theorem c7_dependency_inference_fail_open (respText : String)
    (h : findFirstBracketed respText.data = none ∨
         ∃ sub, findFirstBracketed respText.data = some sub ∧ evalListLit sub = none) :
    analyze_dependencies respText = [] := by
  unfold analyze_dependencies
  rcases h with h | ⟨sub, h1, h2⟩
  · rw [h]
  · rw [h1]
    simp [h2]

/-- Witness for C7 at a concrete response whose first bracketed substring is
not a list literal. -/
theorem c7_dependency_inference_fail_open_witness :
    analyze_dependencies "Use [numpy and pandas] here" = [] :=
  c7_dependency_inference_fail_open _
    (Or.inr ⟨"[numpy and pandas]".data, by decide, by decide⟩)

/-- Claim C9 counterexample: for the collaborator response containing the
list with a repeated name, `analyze_dependencies` returns "numpy" twice, so
the returned dependency list is not deduplicated. -/
theorem c9_dedup_counterexample :
    (analyze_dependencies "['numpy', 'numpy']").count "numpy" = 2 ∧
    ¬ (analyze_dependencies "['numpy', 'numpy']").Nodup := by
  decide

/-- Claim C9 amended: the dependency list is returned exactly as evaluated
from the first bracketed substring of the collaborator response — no
deduplication (and no other normalization) is applied. -/
theorem c9_no_dedup_amended (respText : String) (sub : List Char) (deps : List String)
    (h1 : findFirstBracketed respText.data = some sub)
    (h2 : evalListLit sub = some deps) :
    analyze_dependencies respText = deps := by
  unfold analyze_dependencies
  rw [h1]
  simp [h2]

/-- Witness for the amended C9 at the duplicated-name response. -/
theorem c9_no_dedup_amended_witness :
    analyze_dependencies "['numpy', 'numpy']" = ["numpy", "numpy"] :=
  c9_no_dedup_amended _ "['numpy', 'numpy']".data ["numpy", "numpy"]
    (by decide) (by decide)

/-- Claim C3 counterexample: two independent successful provisioning calls
(with distinct pip diagnostics, standing for distinct requests) both receive
the sandbox identifier "temp_venv" — the identifiers are equal, not
distinct. -/
theorem c3_sandbox_identifier_counterexample :
    (setup_venv ⟨true, "", 0, ""⟩).venv_dir = some "temp_venv" ∧
    (setup_venv ⟨true, "", 0, "collected wheels"⟩).venv_dir = some "temp_venv" ∧
    (setup_venv ⟨true, "", 0, ""⟩).venv_dir
      = (setup_venv ⟨true, "", 0, "collected wheels"⟩).venv_dir := by
  decide

/-- Claim C3 amended: every successful `setup_venv` call hands out the single
fixed sandbox identifier "temp_venv", so any two requests receive equal
identifiers and their environments share the same directory state. -/
theorem c3_sandbox_identifier_amended (w₁ w₂ : ProvisionWorld)
    (h₁ : (setup_venv w₁).success = true) (h₂ : (setup_venv w₂).success = true) :
    (setup_venv w₁).venv_dir = some "temp_venv" ∧
    (setup_venv w₁).venv_dir = (setup_venv w₂).venv_dir := by
  have key : ∀ w : ProvisionWorld, (setup_venv w).success = true →
      (setup_venv w).venv_dir = some "temp_venv" := by
    intro w hw
    by_cases hc : w.venvCreateOk = false
    · simp [setup_venv, hc] at hw
    · by_cases hp : w.pipReturncode ≠ 0
      · simp [setup_venv, hc, hp] at hw
      · simp [setup_venv, hc, hp]
  exact ⟨key w₁ h₁, (key w₁ h₁).trans (key w₂ h₂).symm⟩

/-- Witness for the amended C3 at two concrete successful provisions. -/
theorem c3_sandbox_identifier_amended_witness :
    (setup_venv ⟨true, "", 0, ""⟩).venv_dir = some "temp_venv" ∧
    (setup_venv ⟨true, "", 0, ""⟩).venv_dir
      = (setup_venv ⟨true, "unused", 0, "log text"⟩).venv_dir :=
  c3_sandbox_identifier_amended _ _ (by decide) (by decide)

/-- Claim C1 (code bug): at a request whose pip install exits non-zero, the
venv directory created by the venv command is still on disk when the failure
result is returned — `setup_venv` reports `venv_dir = None` on this path, so
the guarded removal in the finally block never fires, contradicting the
guaranteed-destruction requirement. -/
theorem c1_population_failure_leaks_venv :
    let w : LocalExecWorld :=
      { inferredDeps := ["nonexistent-package-xyz"],
        provision := { venvCreateOk := true, venvCreateErr := "",
                       pipReturncode := 1,
                       pipStderr := "ERROR: No matching distribution found" },
        run1 := .exited 0 "" "", fixedCode := "", run2 := .exited 0 "" "" }
    (local_execute_with_deps w).venvDirCreated = true ∧
    (local_execute_with_deps w).venvDirRemoved = false ∧
    (local_execute_with_deps w).result.success = false ∧
    (local_execute_with_deps w).runsPerformed = 0 := by
  decide

/-- Claim C2: when provisioning succeeds, the first run exits non-zero, and
the run of the repaired code also exits non-zero, the orchestrator performs
exactly one repair request and exactly one re-run (two interpreter runs in
total) and returns success = false — never a second repair round. -/
theorem c2_exactly_one_repair_cycle (w : LocalExecWorld)
    (code code2 : Int) (out err out2 err2 : String)
    (hsetup : (setup_venv w.provision).success = true)
    (h1 : w.run1 = .exited code out err) (hc1 : code ≠ 0)
    (h2 : w.run2 = .exited code2 out2 err2) (hc2 : code2 ≠ 0) :
    (local_execute_with_deps w).repairCalls = 1 ∧
    (local_execute_with_deps w).runsPerformed = 2 ∧
    (local_execute_with_deps w).result.success = false := by
  simp [local_execute_with_deps, hsetup, h1, h2, hc1, hc2]

/-- Witness for C2: a run failing with a division error whose repaired code
still fails. -/
theorem c2_exactly_one_repair_cycle_witness :
    let w : LocalExecWorld :=
      { inferredDeps := [], provision := ⟨true, "", 0, ""⟩,
        run1 := .exited 1 "" "ZeroDivisionError: division by zero",
        fixedCode := "print(1)",
        run2 := .exited 1 "" "NameError" }
    (local_execute_with_deps w).repairCalls = 1 ∧
    (local_execute_with_deps w).runsPerformed = 2 ∧
    (local_execute_with_deps w).result.success = false :=
  c2_exactly_one_repair_cycle _ 1 1 "" "ZeroDivisionError: division by zero"
    "" "NameError" (by decide) rfl (by decide) rfl (by decide)

/-- Claim C4 counterexample: when the first run hits the wall-clock timeout,
no repair cycle is performed (zero repair requests, a single run) and the
failure result carries the TimeoutExpired exception text, not the captured
stderr — a timeout is not treated like a non-zero exit. -/
theorem c4_timeout_no_repair_counterexample :
    let w : LocalExecWorld :=
      { inferredDeps := [], provision := ⟨true, "", 0, ""⟩,
        run1 := .timedOut "Command timed out after 30 seconds",
        fixedCode := "", run2 := .exited 0 "" "" }
    (local_execute_with_deps w).repairCalls = 0 ∧
    (local_execute_with_deps w).runsPerformed = 1 ∧
    (local_execute_with_deps w).result =
      { success := false, output := none,
        error := some "Command timed out after 30 seconds", fixed_code := none } := by
  decide

/-- Claim C4 amended: when the ephemeral run exceeds the wall-clock timeout,
the raised TimeoutExpired lands in the generic exception handler: the request
fails with the exception message as its error text, no repair request and no
second run happen, and the finally block still removes the temporary files
and the venv directory. -/
theorem c4_timeout_amended (w : LocalExecWorld) (excMsg : String)
    (hsetup : (setup_venv w.provision).success = true)
    (h1 : w.run1 = .timedOut excMsg) :
    local_execute_with_deps w =
      { result := { success := false, output := none,
                    error := some excMsg, fixed_code := none },
        repairCalls := 0, runsPerformed := 1,
        tempFilesCreated := 2, tempFilesRemoved := 2,
        venvDirCreated := true, venvDirRemoved := true } := by
  have hck : w.provision.venvCreateOk = true := by
    by_cases hc : w.provision.venvCreateOk = false
    · simp [setup_venv, hc] at hsetup
    · simpa using hc
  simp [local_execute_with_deps, setup_venv_dirOnDisk, hsetup, h1, hck]

/-- Witness for the amended C4 at a concrete timed-out run. -/
theorem c4_timeout_amended_witness :
    local_execute_with_deps
      { inferredDeps := [], provision := ⟨true, "", 0, ""⟩,
        run1 := .timedOut "Command timed out after 30 seconds",
        fixedCode := "", run2 := .exited 0 "" "" } =
      { result := { success := false, output := none,
                    error := some "Command timed out after 30 seconds",
                    fixed_code := none },
        repairCalls := 0, runsPerformed := 1,
        tempFilesCreated := 2, tempFilesRemoved := 2,
        venvDirCreated := true, venvDirRemoved := true } :=
  c4_timeout_amended _ "Command timed out after 30 seconds" (by decide) rfl

/-- Claim C5: with provisioning successful, a service process that exits with
non-zero status within the grace window is reported as success = false with
the captured stderr, and a process still alive when the window elapses is
reported as success = true with the live process handle. -/
theorem c5_grace_window (w : StreamlitWorld)
    (hsetup : (setup_venv w.provision).success = true) :
    (∀ code out err, w.startup = .exitedWithin code out err → code ≠ 0 →
        run_streamlit_app w =
          some { success := false, error := some err,
                 hasProcess := false, venv_dir := none }) ∧
    (w.startup = .stillRunning →
        run_streamlit_app w =
          some { success := true, error := none,
                 hasProcess := true, venv_dir := some "temp_venv" }) := by
  constructor
  · intro code out err hs hc
    simp [run_streamlit_app, hsetup, hs, hc]
  · intro hs
    simp [run_streamlit_app, hsetup, hs]

/-- Witness for C5 at a service still alive after the grace window. -/
theorem c5_grace_window_witness :
    run_streamlit_app
      { inferredDeps := [], provision := ⟨true, "", 0, ""⟩,
        startup := .stillRunning } =
      some { success := true, error := none,
             hasProcess := true, venv_dir := some "temp_venv" } :=
  (c5_grace_window _ (by decide)).2 rfl

/-- Claim C6 (code bug): when the launched service exits with status 0 within
the grace window, `run_streamlit_app` falls off the end of its try block and
returns None — no result record with a success field is produced, although
every explicit return site of the method builds one. -/
theorem c6_zero_exit_returns_none :
    run_streamlit_app
      { inferredDeps := [], provision := ⟨true, "", 0, ""⟩,
        startup := .exitedWithin 0 "done" "" } = none := by
  decide

/-- Claim C10: the dependency list installed by `run_streamlit_app` always
contains "streamlit"; when inference did not already produce it, it is
appended exactly once at the end and the inferred list is otherwise left
unchanged in order; when inference produced it, the list is unchanged. -/
theorem c10_streamlit_dependency (w : StreamlitWorld) :
    "streamlit" ∈ run_streamlit_app_installedDeps w ∧
    ("streamlit" ∉ w.inferredDeps →
        run_streamlit_app_installedDeps w = w.inferredDeps ++ ["streamlit"]) ∧
    ("streamlit" ∈ w.inferredDeps →
        run_streamlit_app_installedDeps w = w.inferredDeps) := by
  unfold run_streamlit_app_installedDeps streamlitDeps
  by_cases h : "streamlit" ∈ w.inferredDeps
  · simp [h]
  · simp [h]

/-- Witness for C10 at an inferred list without "streamlit". -/
theorem c10_streamlit_dependency_witness :
    run_streamlit_app_installedDeps
      { inferredDeps := ["numpy"], provision := ⟨true, "", 0, ""⟩,
        startup := .stillRunning } = ["numpy", "streamlit"] := by
  have h := c10_streamlit_dependency
    { inferredDeps := ["numpy"], provision := ⟨true, "", 0, ""⟩,
      startup := .stillRunning }
  simpa using h.2.1 (by decide)

/-- Outside a code block, lines that do not open a fence are discarded by
`extract_loop`. -/
theorem extract_loop_skip_outside (m rest : List String)
    (hm : ∀ l ∈ m, List.isPrefixOf "```python".data (stripData l.data) = false) :
    extract_loop (m ++ rest) false = extract_loop rest false := by
  induction m with
  | nil => rfl
  | cons l m ih =>
    have hl := hm l (List.mem_cons_self l m)
    have hm' : ∀ x ∈ m, List.isPrefixOf "```python".data (stripData x.data) = false :=
      fun x hx => hm x (List.mem_cons_of_mem l hx)
    simpa [extract_loop, hl] using ih hm'

/-- Inside a code block, lines up to the closing fence are collected verbatim
by `extract_loop`, which then continues outside the block. -/
theorem extract_loop_collect_inside (a rest : List String)
    (ha : ∀ l ∈ a, List.isPrefixOf "```python".data (stripData l.data) = false ∧
                   stripData l.data ≠ "```".data) :
    extract_loop (a ++ "```" :: rest) true = a ++ extract_loop rest false := by
  induction a with
  | nil =>
    have h1 : List.isPrefixOf "```python".data (stripData "```".data) = false := by decide
    have h2 : stripData "```".data = "```".data := by decide
    simp [extract_loop, h1, h2]
  | cons l a ih =>
    have hl := ha l (List.mem_cons_self l a)
    have ha' : ∀ x ∈ a, List.isPrefixOf "```python".data (stripData x.data) = false ∧
                        stripData x.data ≠ "```".data :=
      fun x hx => ha x (List.mem_cons_of_mem l hx)
    simpa [extract_loop, hl.1, hl.2] using ih ha'

/-- Claim C8 counterexample: for a response with two fenced python sections,
`extract_python_code_block` returns the contents of both sections joined, not
only the first section's contents — the second fence is not discarded. -/
theorem c8_first_fence_counterexample :
    extract_python_code_block
        "```python\na = 1\n```\ntext\n```python\nb = 2\n```" = "a = 1\nb = 2" ∧
    "a = 1\nb = 2" ≠ "a = 1" := by
  decide

/-- Claim C8 amended: the extraction returns the concatenation of the
contents of every python-opened fenced section, in order; only the text
outside the fences is discarded. Stated for two complete fenced sections:
the lines of both sections appear, concatenated, in the collected output. -/
theorem c8_all_fences_amended (a m b rest : List String)
    (ha : ∀ l ∈ a, List.isPrefixOf "```python".data (stripData l.data) = false ∧
                   stripData l.data ≠ "```".data)
    (hm : ∀ l ∈ m, List.isPrefixOf "```python".data (stripData l.data) = false)
    (hb : ∀ l ∈ b, List.isPrefixOf "```python".data (stripData l.data) = false ∧
                   stripData l.data ≠ "```".data) :
    extract_loop
        ("```python" :: (a ++ "```" :: (m ++ "```python" :: (b ++ "```" :: rest))))
        false
      = a ++ b ++ extract_loop rest false := by
  have hopen : List.isPrefixOf "```python".data (stripData "```python".data) = true := by
    decide
  calc extract_loop
          ("```python" :: (a ++ "```" :: (m ++ "```python" :: (b ++ "```" :: rest))))
          false
      = extract_loop (a ++ "```" :: (m ++ "```python" :: (b ++ "```" :: rest))) true := by
        simp [extract_loop, hopen]
    _ = a ++ extract_loop (m ++ "```python" :: (b ++ "```" :: rest)) false :=
        extract_loop_collect_inside a _ ha
    _ = a ++ extract_loop ("```python" :: (b ++ "```" :: rest)) false := by
        rw [extract_loop_skip_outside m _ hm]
    _ = a ++ extract_loop (b ++ "```" :: rest) true := by
        simp [extract_loop, hopen]
    _ = a ++ (b ++ extract_loop rest false) := by
        rw [extract_loop_collect_inside b _ hb]
    _ = a ++ b ++ extract_loop rest false := by
        rw [List.append_assoc]

/-- Witness for the amended C8: both fenced sections of a concrete two-block
response are collected. -/
theorem c8_all_fences_amended_witness :
    extract_loop ["```python", "a = 1", "```", "text", "```python", "b = 2", "```"]
        false = ["a = 1", "b = 2"] := by
  have h := c8_all_fences_amended ["a = 1"] ["text"] ["b = 2"] []
    (by decide) (by decide) (by decide)
  simpa using h

end Agentception
